import Mathlib

/-!
Verification of the usage-aggregation core of the `ai-usage-monitor`
repository (standalone monitor `plasmacodexbar_monitor.py` and the KDE
applet backend `plasmoid/contents/code/backend.py`).

Shallow embedding conventions:
* timestamps are rationals (seconds since the epoch), except where the
  source stores millisecond integers (`expiresAt`), which are `Int`;
* floating-point percentages and dollar amounts become rationals;
* token counts become naturals;
* fallible file reads / HTTP calls become `Option` or small outcome
  inductives that mirror the `try`/`except` branches of the source;
* JSON objects whose individual keys matter (the Codex `auth.json`)
  become association lists of string keys.
-/

namespace UsageMonitor

/-- Classification of the pace delta, `ProviderStats.pace_status` in the
source (`Behind (…)`, `Ahead (+…)`, `On track` strings). -/
inductive PaceStatus where
  | behind
  | ahead
  | onTrack
deriving DecidableEq, Repr

/-- The pace outcome: `ProviderStats.pace_percentage` and
`ProviderStats.pace_status`.  Dataclass defaults are `0.0` / `On track`. -/
structure PaceResult where
  delta : ℚ
  status : PaceStatus
deriving DecidableEq, Repr

/-- Shared classification: `< 0 → Behind`, `> 0 → Ahead`, else `On track`
(the if/elif/else chain at the end of every pace block). -/
def classifyPace (delta : ℚ) : PaceStatus :=
  if delta < 0 then .behind else if delta > 0 then .ahead else .onTrack

/-- `ClaudeOAuthFetcher.collect`, pace block (monitor lines 318-333), also
`ClaudeCollector.collect` lines 139-157 of the backend: fixed 7-day window,
computed only when the weekly reset time is present. -/
def claudePace (usedPct : ℚ) (weeklyResetTime : Option ℚ) (now : ℚ) : PaceResult :=
  match weeklyResetTime with
  | none => ⟨0, .onTrack⟩
  | some reset =>
    let weekStart := reset - 7 * 24 * 3600
    let totalSeconds := reset - weekStart
    let elapsedSeconds := now - weekStart
    let expectedPct := elapsedSeconds / totalSeconds * 100
    let delta := usedPct - expectedPct
    ⟨delta, classifyPace delta⟩

/-- `CodexOAuthFetcher.collect`, pace block (monitor lines 651-668): the
window length comes from `limit_window_seconds` (default `7*24*3600`), and
the whole block is guarded by `stats.weekly_reset_time and
stats.weekly_used_pct > 0`. -/
def codexPace (usedPct : ℚ) (weeklyResetTime : Option ℚ) (now : ℚ)
    (limitWindowSeconds : Option ℚ) : PaceResult :=
  match weeklyResetTime with
  | none => ⟨0, .onTrack⟩
  | some reset =>
    if usedPct > 0 then
      let windowSeconds := limitWindowSeconds.getD (7 * 24 * 3600)
      let windowStart := reset - windowSeconds
      let elapsedSeconds := now - windowStart
      let expectedPct := elapsedSeconds / windowSeconds * 100
      let delta := usedPct - expectedPct
      ⟨delta, classifyPace delta⟩
    else ⟨0, .onTrack⟩

/-- Python's `str.strip()`: drop leading and trailing whitespace. -/
def pyStrip (s : String) : String :=
  ⟨((s.data.dropWhile Char.isWhitespace).reverse.dropWhile Char.isWhitespace).reverse⟩

/-- The fields of `~/.claude/.credentials.json` under the `claudeAiOauth`
key that the collectors read.  `accessToken` is `none` when the key is
absent; `expiresAt` defaults to `0` (`creds.get("expiresAt", 0)`),
millisecond epoch. -/
structure ClaudeCreds where
  accessToken : Option String
  expiresAt : Int
deriving DecidableEq, Repr

/-- The fields of `~/.codex/auth.json` read by the collectors.  `none`
marks an absent key (`data.get(...)` returning `None`); `last_refresh` is
the parsed ISO timestamp in epoch seconds, `none` when absent or
unparseable. -/
structure CodexAuthFile where
  openai_api_key : Option String
  tokens_access_token : Option String
  tokens_refresh_token : Option String
  tokens_id_token : Option String
  tokens_account_id : Option String
  last_refresh : Option ℚ
deriving DecidableEq, Repr

/-- The credential dict built by `CodexOAuthFetcher._load_credentials`. -/
structure CodexCreds where
  access_token : String
  refresh_token : String
  id_token : Option String
  account_id : Option String
  last_refresh : Option ℚ
deriving DecidableEq, Repr

/-- `CodexOAuthFetcher._load_credentials` (monitor lines 381-427): a
non-empty (stripped) `OPENAI_API_KEY` wins and yields a credential with an
empty refresh token; otherwise the `tokens` pair is used, `none` when the
stripped access token is empty.  The `none` input stands for a missing or
unreadable `auth.json`. -/
def codexLoadCredentials (file : Option CodexAuthFile) : Option CodexCreds :=
  match file with
  | none => none
  | some data =>
    let api_key := pyStrip (data.openai_api_key.getD "")
    if api_key ≠ "" then
      some ⟨api_key, "", none, none, none⟩
    else
      let access_token := pyStrip (data.tokens_access_token.getD "")
      let refresh_token := pyStrip (data.tokens_refresh_token.getD "")
      if access_token = "" then none
      else some ⟨access_token, refresh_token, data.tokens_id_token,
                 data.tokens_account_id, data.last_refresh⟩

/-- `CodexOAuthFetcher._needs_refresh` (monitor lines 429-439): no refresh
without a refresh token; refresh when the last refresh time is unknown or
more than 8 days old. -/
def codexNeedsRefresh (creds : CodexCreds) (now : ℚ) : Bool :=
  if creds.refresh_token = "" then false
  else
    match creds.last_refresh with
    | none => true
    | some lastRefresh => now - lastRefresh > 8 * 24 * 3600

/-- Access-token selection in `CodexCollector.collect` of the applet
backend (lines 300-303): `tokens.access_token` first, the API key only as
fallback. -/
def backendCodexAccessToken (auth : CodexAuthFile) : String :=
  let access_token := pyStrip (auth.tokens_access_token.getD "")
  if access_token = "" then pyStrip (auth.openai_api_key.getD "") else access_token

/-- The claim-relevant fields of a provider snapshot (`ProviderStats`
dataclass in the monitor, the `result` dict in the backend), with the
dataclass defaults. -/
structure Snapshot where
  is_connected : Bool := false
  error_message : String := ""
  pace : PaceResult := ⟨0, .onTrack⟩
  cost_today : ℚ := 0
  cost_today_tokens : ℕ := 0
  cost_30_days : ℚ := 0
  cost_30_days_tokens : ℕ := 0
deriving DecidableEq, Repr

/-- What a local-ledger scan produces (the `stats` dict of
`ClaudeOAuthFetcher._load_local_cost_stats` / `_load_cost_stats`). -/
structure LedgerStats where
  cost_today : ℚ
  cost_today_tokens : ℕ
  cost_30_days : ℚ
  cost_30_days_tokens : ℕ
deriving DecidableEq, Repr

/-- The parsed fields of a Claude usage response that feed the pace
computation. -/
structure ClaudeUsage where
  weekly_used_pct : ℚ
  weekly_reset_time : Option ℚ
deriving DecidableEq, Repr

/-- The parsed fields of a Codex usage response that feed the pace
computation. -/
structure CodexUsage where
  weekly_used_pct : ℚ
  weekly_reset_time : Option ℚ
  limit_window_seconds : Option ℚ
deriving DecidableEq, Repr

/-- Result of reading a credentials file in the backend, which
distinguishes a missing file from an unreadable one. -/
inductive FileRead (α : Type) where
  | missing
  | unreadable
  | ok (a : α)
deriving DecidableEq, Repr

/-- Outcome of the backend's inline usage fetch: the `try` block
distinguishes `urllib.error.HTTPError` from every other exception
(timeouts, network errors, JSON parse failures). -/
inductive FetchOutcome (α : Type) where
  | ok (data : α)
  | httpError (code : ℕ)
  | otherError (msg : String)
deriving DecidableEq, Repr

/-- `ClaudeOAuthFetcher.collect` (monitor lines 231-344).  `credsLoad` is
the result of `_load_credentials` (`none` covers a missing file, a read
error, and a missing `claudeAiOauth` key, all of which fail the
`if not creds` test); `fetchResult` is the result of `_fetch_usage_api`
(`none` for every failure); `ledger` is what `_load_local_cost_stats`
would return.  Mirrors the early returns of the source: the ledger load
happens only on the fully successful path. -/
def claudeCollect (credsLoad : Option ClaudeCreds) (now : ℚ)
    (fetchResult : Option ClaudeUsage) (ledger : LedgerStats) : Snapshot :=
  match credsLoad with
  | none => { error_message := "Not logged in. Run \x27claude\x27 to authenticate." }
  | some creds =>
    if creds.accessToken.getD "" = "" then
      { error_message := "No access token found. Run \x27claude\x27 to authenticate." }
    else if creds.expiresAt ≠ 0 ∧ (creds.expiresAt : ℚ) / 1000 < now then
      { error_message := "Token expired. Run \x27claude\x27 to refresh." }
    else
      match fetchResult with
      | none =>
        { is_connected := true
          error_message := "Failed to fetch usage data from API." }
      | some usage =>
        { is_connected := true
          pace := claudePace usage.weekly_used_pct usage.weekly_reset_time now
          cost_today := ledger.cost_today
          cost_today_tokens := ledger.cost_today_tokens
          cost_30_days := ledger.cost_30_days
          cost_30_days_tokens := ledger.cost_30_days_tokens }

/-- `ClaudeCollector.collect` of the applet backend (lines 34-167).  The
ledger load (`_load_cost_stats`) runs after the fetch `try`/`except`, so
it applies on every fetch outcome but not on the credential early
returns.  Only `HTTPError` sets `is_connected = True` together with the
error message; other exceptions set the message but leave the flag
`False`. -/
def backendClaudeCollect (credsRead : FileRead ClaudeCreds) (now : ℚ)
    (fetchResult : FetchOutcome ClaudeUsage) (ledger : LedgerStats) : Snapshot :=
  match credsRead with
  | .missing => { error_message := "Not logged in. Run \x27claude\x27 to authenticate." }
  | .unreadable => { error_message := "Failed to read credentials." }
  | .ok creds =>
    if creds.accessToken.getD "" = "" then
      { error_message := "No access token. Run \x27claude\x27 to authenticate." }
    else if creds.expiresAt ≠ 0 ∧ (creds.expiresAt : ℚ) / 1000 < now then
      { error_message := "Token expired. Run \x27claude\x27 to refresh." }
    else
      let base : Snapshot :=
        match fetchResult with
        | .ok usage =>
          { is_connected := true
            pace := claudePace usage.weekly_used_pct usage.weekly_reset_time now }
        | .httpError code =>
          { is_connected := true
            error_message := "API error: " ++ toString code }
        | .otherError msg =>
          { error_message := "Failed to fetch: " ++ msg }
      { base with
        cost_today := ledger.cost_today
        cost_today_tokens := ledger.cost_today_tokens
        cost_30_days := ledger.cost_30_days
        cost_30_days_tokens := ledger.cost_30_days_tokens }

/-- A JSON value, as far as the Codex `auth.json` round trip needs it. -/
inductive JVal where
  | str (s : String)
  | num (n : Int)
  | obj (fields : List (String × JVal))
deriving Repr

/-- Dictionary lookup on a JSON object (first matching key). -/
def jget : List (String × JVal) → String → Option JVal
  | [], _ => none
  | p :: rest, k => if p.1 = k then some p.2 else jget rest k

/-- Dictionary assignment `existing[k] = v` on a JSON object: replace in
place when the key is present, append otherwise (Python dict semantics on
objects with unique keys). -/
def setKey : List (String × JVal) → String → JVal → List (String × JVal)
  | [], k, v => [(k, v)]
  | p :: rest, k, v => if p.1 = k then (k, v) :: rest else p :: setKey rest k v

/-- The `tokens` object built by `CodexOAuthFetcher._save_credentials`
(monitor lines 492-499): always `access_token` and `refresh_token`;
`id_token` and `account_id` only when truthy. -/
def tokensObj (creds : CodexCreds) : List (String × JVal) :=
  let base := [("access_token", JVal.str creds.access_token),
               ("refresh_token", JVal.str creds.refresh_token)]
  let withId := if creds.id_token.getD "" ≠ ""
    then base ++ [("id_token", JVal.str (creds.id_token.getD ""))] else base
  if creds.account_id.getD "" ≠ ""
    then withId ++ [("account_id", JVal.str (creds.account_id.getD ""))] else withId

/-- `CodexOAuthFetcher._save_credentials` (monitor lines 484-508): read
the existing `auth.json` object, overwrite just the `tokens` and
`last_refresh` keys, write it back.  `nowIso` is the serialized refresh
timestamp. -/
def codexSaveCredentials (existing : List (String × JVal)) (creds : CodexCreds)
    (nowIso : String) : List (String × JVal) :=
  setKey (setKey existing "tokens" (.obj (tokensObj creds))) "last_refresh" (.str nowIso)

/-- The body of a successful OAuth refresh response; `none` marks an
absent key, for which `data.get(...)` falls back to the old value. -/
structure RefreshResponse where
  access_token : Option String
  refresh_token : Option String
  id_token : Option String
deriving DecidableEq, Repr

/-- The refresh response seen by `CodexOAuthFetcher._refresh_token`:
HTTP 200 with parseable JSON (`ok`), a non-2xx status (`httpError`), a
network error or timeout (`netError`), or a 200 body that fails to parse
(`malformed`). -/
inductive RefreshOutcome where
  | ok (resp : RefreshResponse)
  | httpError (code : ℕ)
  | netError
  | malformed
deriving DecidableEq, Repr

/-- `RefreshOutcome` cases that raise or return a non-200 status. -/
def RefreshOutcome.isFailure : RefreshOutcome → Bool
  | .ok _ => false
  | _ => true

/-- The `new_creds` dict built on a successful refresh (monitor lines
467-473): response fields with the old values as defaults, the old
account id, and the current time as the refresh timestamp. -/
def codexRefreshedCreds (creds : CodexCreds) (now : ℚ) (resp : RefreshResponse) : CodexCreds :=
  { access_token := resp.access_token.getD creds.access_token
    refresh_token := resp.refresh_token.getD creds.refresh_token
    id_token := match resp.id_token with
                | some t => some t
                | none => creds.id_token
    account_id := creds.account_id
    last_refresh := some now }

/-- `CodexOAuthFetcher._refresh_token` (monitor lines 441-482).  Returns
the new credentials (`none` on failure) together with the list of
credential saves performed (`_save_credentials` calls). -/
def codexRefreshToken (creds : CodexCreds) (now : ℚ) (outcome : RefreshOutcome) :
    Option CodexCreds × List CodexCreds :=
  if creds.refresh_token = "" then (some creds, [])
  else
    match outcome with
    | .ok resp =>
      (some (codexRefreshedCreds creds now resp), [codexRefreshedCreds creds now resp])
    | _ => (none, [])

/-- What one `CodexOAuthFetcher.collect` run did: the snapshot, every
credential file write, and the access token the usage fetch was invoked
with (`none` when the fetch was never reached). -/
structure CodexPollTrace where
  snapshot : Snapshot
  savedFiles : List CodexCreds
  fetchToken : Option String
deriving DecidableEq, Repr

/-- The fields of one parsed line of a Codex session `*.jsonl` file that
`_get_session_tokens` inspects: `entry.get("type")`,
`payload.get("type")` (with `payload` defaulting to `{}`), and
`payload.info.total_token_usage.output_tokens` (each level defaulting to
`{}`, the final lookup defaulting to `0`). -/
structure SessionEntry where
  etype : Option String
  payload_type : Option String
  output_tokens : Option ℕ
deriving DecidableEq, Repr

/-- The `type == "event_msg" and payload.type == "token_count"` test. -/
def isTokenCountEvent (e : SessionEntry) : Bool :=
  e.etype == some "event_msg" && e.payload_type == some "token_count"

/-- One loop iteration of `_get_session_tokens`: a line that fails to
parse (`none`) is skipped, a matching event overwrites the running value
with its `output_tokens` (default 0), anything else is ignored. -/
def sessionTokenStep (last : ℕ) (line : Option SessionEntry) : ℕ :=
  match line with
  | none => last
  | some e => if isTokenCountEvent e then e.output_tokens.getD 0 else last

/-- `CodexOAuthFetcher._get_session_tokens` (monitor lines 729-750), also
`CodexCollector._get_session_tokens` (backend lines 434-457): scan the
file, and keep the `output_tokens` of the last `token_count` event.  A
session file is the list of its lines, `none` for an unparseable line. -/
def getSessionTokens (lines : List (Option SessionEntry)) : ℕ :=
  lines.foldl sessionTokenStep 0

/-- The last line of a session file that is a `token_count` event, the
specification-side view of `getSessionTokens`. -/
def lastTokenCount (lines : List (Option SessionEntry)) : Option SessionEntry :=
  ((lines.filterMap id).filter isTokenCountEvent).getLast?

/-- One valid `sessions/YYYY/MM/DD` directory of the Codex session tree:
its parsed calendar date (as a day number) and the line lists of its
`*.jsonl` files. -/
structure DayDir where
  date : Int
  files : List (List (Option SessionEntry))
deriving DecidableEq, Repr

/-- Totals produced by the Codex ledger scan
(`cost_today_tokens`, `cost_30_days_tokens`). -/
structure LedgerTotals where
  today_tokens : ℕ
  trailing30_tokens : ℕ
deriving DecidableEq, Repr

/-- Total tokens of one day directory. -/
def dayDirTokens (d : DayDir) : ℕ := (d.files.map getSessionTokens).sum

/-- The body of the directory walk of
`CodexOAuthFetcher._load_local_cost_stats` (monitor lines 697-723) for one
day directory: skip it entirely when dated more than 30 days before
today; otherwise each file's tokens go to the 30-day total, and also to
today's total when the directory is dated today. -/
def scanDayDir (today : Int) (acc : LedgerTotals) (d : DayDir) : LedgerTotals :=
  if d.date < today - 30 then acc
  else
    d.files.foldl (fun a f =>
      let tokens := getSessionTokens f
      ⟨if d.date = today then a.today_tokens + tokens else a.today_tokens,
       a.trailing30_tokens + tokens⟩) acc

/-- `CodexOAuthFetcher._load_local_cost_stats` (monitor lines 677-727),
also `CodexCollector._load_cost_stats` (backend lines 382-432): walk the
date-partitioned tree, or return all-zero totals when the sessions
directory is missing (`none`). -/
def codexLoadLocalCostStats (tree : Option (List DayDir)) (today : Int) : LedgerTotals :=
  match tree with
  | none => ⟨0, 0⟩
  | some dirs => dirs.foldl (scanDayDir today) ⟨0, 0⟩

/-- One row of the fixed per-model price table (dollars per 1M tokens). -/
structure PriceRow where
  input : ℚ
  output : ℚ
  cache_read : ℚ
  cache_write : ℚ
deriving DecidableEq, Repr

/-- The `PRICING` table of `_load_local_cost_stats` (monitor lines
180-183, backend lines 223-226). -/
def PRICING : List (String × PriceRow) :=
  [("claude-opus-4-5-20251101", ⟨15, 75, 3/2, 75/4⟩),
   ("claude-sonnet-4-5-20250929", ⟨3, 15, 3/10, 15/4⟩)]

/-- The `DEFAULT_PRICING` row (monitor line 184, backend line 227). -/
def DEFAULT_PRICING : PriceRow := ⟨3, 15, 3/10, 15/4⟩

/-- `PRICING.get(model_id, DEFAULT_PRICING)`. -/
def lookupPricing (model_id : String) : PriceRow :=
  ((PRICING.find? (fun p => p.1 == model_id)).map (fun p => p.2)).getD DEFAULT_PRICING

/-- One `modelUsage` entry of `stats-cache.json`; the four token
categories, each defaulting to 0. -/
structure TokenUsageEntry where
  inputTokens : ℕ
  outputTokens : ℕ
  cacheReadInputTokens : ℕ
  cacheCreationInputTokens : ℕ
deriving DecidableEq, Repr

/-- The per-model cost expression of `_load_local_cost_stats` (monitor
lines 212-217): `tokens/1e6 * rate` over the four categories. -/
def modelCost (pricing : PriceRow) (u : TokenUsageEntry) : ℚ :=
  (u.inputTokens : ℚ) / 1000000 * pricing.input
  + (u.outputTokens : ℚ) / 1000000 * pricing.output
  + (u.cacheReadInputTokens : ℚ) / 1000000 * pricing.cache_read
  + (u.cacheCreationInputTokens : ℚ) / 1000000 * pricing.cache_write

/-- The `total_cost` accumulation of `_load_local_cost_stats` (monitor
lines 203-220): loop over `modelUsage`, adding each model's cost under its
price row (default row for unknown ids). -/
def claudeCost30Days (modelUsage : List (String × TokenUsageEntry)) : ℚ :=
  modelUsage.foldl (fun acc p => acc + modelCost (lookupPricing p.1) p.2) 0

/-- One `dailyModelTokens` entry: the parsed date (`none` when the date
string is malformed, which skips the entry) and the values of
`tokensByModel`. -/
structure DailyTokensEntry where
  date : Option Int
  tokensByModel : List ℕ
deriving DecidableEq, Repr

/-- The parsed `stats-cache.json` contents used by the scan. -/
structure StatsCache where
  dailyModelTokens : List DailyTokensEntry
  modelUsage : List (String × TokenUsageEntry)
deriving DecidableEq, Repr

/-- The daily-token loop of `_load_local_cost_stats` (monitor lines
190-199): today's tokens are assigned (last matching entry wins), the
30-day tokens accumulate over entries dated within the window. -/
def claudeDailyStep (today : Int) (acc : ℕ × ℕ) (e : DailyTokensEntry) : ℕ × ℕ :=
  match e.date with
  | none => acc
  | some d =>
    let tokens := e.tokensByModel.sum
    (if d = today then tokens else acc.1,
     if today - 30 ≤ d then acc.2 + tokens else acc.2)

/-- `ClaudeOAuthFetcher._load_local_cost_stats` (monitor lines 161-229):
all-zero stats when the cache file is missing, otherwise daily token
totals, the per-model 30-day cost, and the flat `tokens/1e6 * 5` estimate
for today's cost. -/
def claudeLoadLocalCostStats (cache : Option StatsCache) (today : Int) : LedgerStats :=
  match cache with
  | none => ⟨0, 0, 0, 0⟩
  | some data =>
    let daily := data.dailyModelTokens.foldl (claudeDailyStep today) (0, 0)
    { cost_today := (daily.1 : ℚ) / 1000000 * 5
      cost_today_tokens := daily.1
      cost_30_days := claudeCost30Days data.modelUsage
      cost_30_days_tokens := daily.2 }

/-- `CodexOAuthFetcher.collect` (monitor lines 570-675).  Inputs stand
for the environment: the `auth.json` contents, the wall clock, the
refresh-endpoint response, the usage-endpoint response (`none` for every
failure, as `_fetch_usage_api` collapses them), and the session-tree
totals `_load_local_cost_stats` would return.  The trace records the
snapshot, the credential writes, and the token the fetch used. -/
def monitorCodexCollect (authFile : Option CodexAuthFile) (now : ℚ)
    (refreshOutcome : RefreshOutcome) (fetchResult : Option CodexUsage)
    (ledger : LedgerTotals) : CodexPollTrace :=
  match codexLoadCredentials authFile with
  | none =>
    ⟨{ error_message := "Not logged in. Run \x27codex\x27 to authenticate." }, [], none⟩
  | some creds0 =>
    if creds0.access_token = "" then
      ⟨{ error_message := "No access token found. Run \x27codex\x27 to authenticate." },
       [], none⟩
    else
      let step : CodexCreds × List CodexCreds :=
        if codexNeedsRefresh creds0 now then
          match codexRefreshToken creds0 now refreshOutcome with
          | (some refreshed, writes) => (refreshed, writes)
          | (none, writes) => (creds0, writes)
        else (creds0, [])
      match fetchResult with
      | none =>
        ⟨{ is_connected := true
           error_message := "Failed to fetch usage data from API." },
         step.2, some step.1.access_token⟩
      | some usage =>
        ⟨{ is_connected := true
           pace := codexPace usage.weekly_used_pct usage.weekly_reset_time now
                     usage.limit_window_seconds
           cost_today_tokens := ledger.today_tokens
           cost_30_days_tokens := ledger.trailing30_tokens },
         step.2, some step.1.access_token⟩

/-- The pace block of `CodexCollector.collect` in the applet backend
(lines 351-370): same formula as the monitor's Codex pace, but guarded
only by the presence of the reset time. -/
def backendCodexPace (usedPct : ℚ) (weeklyResetTime : Option ℚ) (now : ℚ)
    (limitWindowSeconds : Option ℚ) : PaceResult :=
  match weeklyResetTime with
  | none => ⟨0, .onTrack⟩
  | some reset =>
    let windowSeconds := limitWindowSeconds.getD (7 * 24 * 3600)
    let windowStart := reset - windowSeconds
    let elapsedSeconds := now - windowStart
    let expectedPct := elapsedSeconds / windowSeconds * 100
    let delta := usedPct - expectedPct
    ⟨delta, classifyPace delta⟩

/-- `CodexCollector.collect` of the applet backend (lines 266-380): the
ledger load (`_load_cost_stats`) runs after the fetch `try`/`except`;
only `HTTPError` marks the snapshot connected alongside its error
message. -/
def backendCodexCollect (authRead : FileRead CodexAuthFile) (now : ℚ)
    (fetchResult : FetchOutcome CodexUsage) (ledger : LedgerTotals) : Snapshot :=
  match authRead with
  | .missing => { error_message := "Not logged in. Run \x27codex\x27 to authenticate." }
  | .unreadable => { error_message := "Failed to read auth file." }
  | .ok auth =>
    if backendCodexAccessToken auth = "" then
      { error_message := "No access token. Run \x27codex\x27 to authenticate." }
    else
      let base : Snapshot :=
        match fetchResult with
        | .ok usage =>
          { is_connected := true
            pace := backendCodexPace usage.weekly_used_pct usage.weekly_reset_time now
                      usage.limit_window_seconds }
        | .httpError code =>
          { is_connected := true
            error_message := "API error: " ++ toString code }
        | .otherError msg =>
          { error_message := "Failed to fetch: " ++ msg }
      { base with
        cost_today_tokens := ledger.today_tokens
        cost_30_days_tokens := ledger.trailing30_tokens }

/-- A Codex `auth.json` holding both a plain API key and a populated
OAuth token pair. -/
def exAuthBoth : CodexAuthFile :=
  ⟨some "sk-key", some "oauth-token", some "refresh-tok", none, none, none⟩

/-- A Codex `auth.json` with an OAuth pair, no API key and no recorded
refresh time, so a refresh is always attempted. -/
def exAuthStale : CodexAuthFile :=
  ⟨none, some "old-access", some "old-refresh", none, none, none⟩

/-- Valid, unexpired Claude credentials (`expiresAt` 0 skips the expiry
test, as in the source's truthiness check). -/
def exClaudeCreds : ClaudeCreds := ⟨some "tok", 0⟩

/-- A ledger scan result with non-zero totals. -/
def exLedger : LedgerStats := ⟨1, 2, 3, 4⟩

/-- Non-zero Codex session-tree totals. -/
def exTotals : LedgerTotals := ⟨7, 9⟩

/-- A parsed session line that is a `token_count` event reporting
`output_tokens = n`. -/
def tcLine (n : ℕ) : Option SessionEntry :=
  some ⟨some "event_msg", some "token_count", some n⟩

/-- A session file whose `token_count` events report 50 and then 80
output tokens. -/
def exSession5080 : List (Option SessionEntry) := [tcLine 50, tcLine 80]

/-- A one-file day directory whose session ends with `output_tokens = n`. -/
def exFile (n : ℕ) : List (Option SessionEntry) := [tcLine n]

/-- A sessions tree with three files: 300 output tokens 40 days ago, 200
ten days ago, and 100 today (day numbers relative to today = 0). -/
def exSessionTree : List DayDir :=
  [⟨-40, [exFile 300]⟩, ⟨-10, [exFile 200]⟩, ⟨0, [exFile 100]⟩]

/-- An `auth.json` object with an unrelated top-level key next to the
token data. -/
def exExistingAuthObj : List (String × JVal) :=
  [("OPENAI_API_KEY", .str "sk-unrelated"),
   ("tokens", .obj [("access_token", .str "old-access")]),
   ("last_refresh", .str "old-stamp")]

/-- Refreshed credentials to be persisted. -/
def exNewCreds : CodexCreds := ⟨"new-access", "new-refresh", none, none, some 5⟩

/-! ### Helper lemmas -/

theorem classifyPace_spec (delta : ℚ) :
    (classifyPace delta = .behind ↔ delta < 0)
    ∧ (classifyPace delta = .ahead ↔ 0 < delta)
    ∧ (classifyPace delta = .onTrack ↔ delta = 0) := by
  rcases lt_trichotomy delta 0 with h | h | h
  · simp [classifyPace, h, lt_asymm h, h.ne]
  · simp [classifyPace, h]
  · simp [classifyPace, h, lt_asymm h, h.ne.symm]

theorem string_append_left_ne_empty (s t : String) (h : s ≠ "") : s ++ t ≠ "" := by
  intro heq
  apply h
  have hd : (s ++ t).data = "".data := congrArg String.data heq
  simp [String.data_append] at hd
  cases s with
  | mk d => simp_all [String.ext_iff]

theorem codexLoadCredentials_access_ne_empty {file : Option CodexAuthFile}
    {creds : CodexCreds} (h : codexLoadCredentials file = some creds) :
    creds.access_token ≠ "" := by
  match file with
  | none => simp [codexLoadCredentials] at h
  | some data =>
    simp only [codexLoadCredentials] at h
    by_cases hk : pyStrip (data.openai_api_key.getD "") ≠ ""
    · rw [if_pos hk] at h
      obtain rfl := Option.some.inj h
      exact hk
    · rw [if_neg hk] at h
      by_cases ha : pyStrip (data.tokens_access_token.getD "") = ""
      · rw [if_pos ha] at h
        exact absurd h (by simp)
      · rw [if_neg ha] at h
        obtain rfl := Option.some.inj h
        exact ha

theorem codexNeedsRefresh_refresh_ne_empty {creds : CodexCreds} {now : ℚ}
    (h : codexNeedsRefresh creds now = true) : creds.refresh_token ≠ "" := by
  intro he
  simp [codexNeedsRefresh, he] at h

theorem foldl_sessionTokenStep (lines : List (Option SessionEntry)) (a : ℕ) :
    lines.foldl sessionTokenStep a =
      (lastTokenCount lines).elim a (fun e => e.output_tokens.getD 0) := by
  induction lines generalizing a with
  | nil => rfl
  | cons l ls ih =>
    rw [List.foldl_cons, ih]
    rcases l with _ | e
    · simp [lastTokenCount, sessionTokenStep, List.filterMap_cons_none]
    · by_cases he : isTokenCountEvent e
      · have hfm : (some e :: ls).filterMap id = e :: ls.filterMap id :=
          List.filterMap_cons_some rfl
        simp only [lastTokenCount, hfm, List.filter_cons_of_pos he,
          sessionTokenStep, he, if_true]
        rcases hrest : (ls.filterMap id).filter isTokenCountEvent with _ | ⟨x, xs⟩
        · simp
        · rw [List.getLast?_cons_cons]
          rcases hlast : (x :: xs).getLast? with _ | y
          · exact absurd (List.getLast?_eq_none_iff.mp hlast) (by simp)
          · simp
      · have hfm : (some e :: ls).filterMap id = e :: ls.filterMap id :=
          List.filterMap_cons_some rfl
        simp [lastTokenCount, hfm, List.filter_cons_of_neg, he, sessionTokenStep]

theorem scanDayDir_spec (today : Int) (acc : LedgerTotals) (d : DayDir) :
    scanDayDir today acc d =
      if d.date < today - 30 then acc
      else ⟨acc.today_tokens + (if d.date = today then dayDirTokens d else 0),
            acc.trailing30_tokens + dayDirTokens d⟩ := by
  unfold scanDayDir dayDirTokens
  split
  · rfl
  · induction d.files generalizing acc with
    | nil => cases acc; simp
    | cons f fs ih =>
      rw [List.foldl_cons, ih]
      by_cases h : d.date = today <;>
        simp [h, Nat.add_assoc]

theorem foldl_scanDayDir (today : Int) (dirs : List DayDir) (acc : LedgerTotals) :
    dirs.foldl (scanDayDir today) acc =
      ⟨acc.today_tokens +
         ((dirs.filter (fun d => d.date = today)).map dayDirTokens).sum,
       acc.trailing30_tokens +
         ((dirs.filter (fun d => ¬ d.date < today - 30)).map dayDirTokens).sum⟩ := by
  induction dirs generalizing acc with
  | nil => cases acc; simp
  | cons d ds ih =>
    rw [List.foldl_cons, ih, scanDayDir_spec]
    by_cases hskip : d.date < today - 30
    · have hne : d.date ≠ today := by omega
      have hout : ¬ today ≤ d.date + 30 := by omega
      rw [if_pos hskip]
      simp [List.filter_cons, hne, hskip, hout]
    · have hin : today ≤ d.date + 30 := by omega
      rw [if_neg hskip]
      by_cases htoday : d.date = today <;>
        simp [List.filter_cons, htoday, hskip, hin, Nat.add_assoc]

theorem todaySum_le_trailingSum (today : Int) (dirs : List DayDir) :
    ((dirs.filter (fun d => d.date = today)).map dayDirTokens).sum ≤
      ((dirs.filter (fun d => ¬ d.date < today - 30)).map dayDirTokens).sum := by
  have hsub : List.Sublist (dirs.filter (fun d => d.date = today))
      (dirs.filter (fun d => ¬ d.date < today - 30)) := by
    apply List.monotone_filter_right
    intro d hd
    simp only [decide_eq_true_eq] at hd ⊢
    omega
  exact (hsub.map dayDirTokens).sum_le_sum (fun a _ => Nat.zero_le a)

theorem foldl_add_cost {α : Type} (f : α → ℚ) (l : List α) (a : ℚ) :
    l.foldl (fun acc p => acc + f p) a = a + (l.map f).sum := by
  induction l generalizing a with
  | nil => simp
  | cons x xs ih => simp [ih, add_assoc]

theorem jget_setKey_same (o : List (String × JVal)) (k : String) (v : JVal) :
    jget (setKey o k v) k = some v := by
  induction o with
  | nil => simp [setKey, jget]
  | cons p rest ih =>
    by_cases h : p.1 = k
    · simp [setKey, h, jget]
    · simp [setKey, h, jget, ih]

theorem jget_setKey_other (o : List (String × JVal)) (k j : String) (v : JVal)
    (hjk : j ≠ k) : jget (setKey o k v) j = jget o j := by
  have hkj : ¬ k = j := Ne.symm hjk
  induction o with
  | nil => simp [setKey, jget, hkj]
  | cons p rest ih =>
    by_cases h : p.1 = k
    · simp [setKey, jget, h, hkj]
    · simp [setKey, jget, h, ih]

/-! ### Claim theorems -/

/-- Claim C4: for every second-provider session file, the scanned token
value is the `output_tokens` of the last line whose record has
`type == "event_msg"` and `payload.type == "token_count"` (never the sum
across such lines); a file reporting 50 and then 80 yields 80, not 130. -/
theorem C4_lastTokenCountWins :
    (∀ lines : List (Option SessionEntry),
       getSessionTokens lines =
         (lastTokenCount lines).elim 0 (fun e => e.output_tokens.getD 0))
    ∧ getSessionTokens exSession5080 = 80
    ∧ getSessionTokens exSession5080 ≠ 50 + 80 :=
  ⟨fun lines => foldl_sessionTokenStep lines 0, by decide, by decide⟩

/-- Claim C5: the second-provider ledger scan takes a session file's date
from its directory path; directories dated more than 30 days before today
are excluded entirely, directories within the window feed the trailing
30-day total, and today's directory feeds both totals — so files with 100
(today), 200 (10 days ago) and 300 (40 days ago) output tokens give
`trailing30Tokens = 300` and `todayTokens = 100`. -/
theorem C5_datePartitionedScan :
    (∀ (dirs : List DayDir) (today : Int),
       codexLoadLocalCostStats (some dirs) today =
         ⟨((dirs.filter (fun d => d.date = today)).map dayDirTokens).sum,
          ((dirs.filter (fun d => ¬ d.date < today - 30)).map dayDirTokens).sum⟩)
    ∧ codexLoadLocalCostStats (some exSessionTree) 0 = ⟨100, 300⟩ := by
  constructor
  · intro dirs today
    show dirs.foldl (scanDayDir today) ⟨0, 0⟩ = _
    rw [foldl_scanDayDir]
    simp
  · decide

/-- Claim C10: for every state of the second provider's sessions tree
(including a missing tree), the scan's today total is at most its
trailing-30-day total, since every file counted toward today is also
counted toward the 30-day window. -/
theorem C10_todayWithinTrailing30 (tree : Option (List DayDir)) (today : Int) :
    (codexLoadLocalCostStats tree today).today_tokens ≤
      (codexLoadLocalCostStats tree today).trailing30_tokens := by
  cases tree with
  | none => exact Nat.le_refl 0
  | some dirs =>
    have h : codexLoadLocalCostStats (some dirs) today =
        ⟨((dirs.filter (fun d => d.date = today)).map dayDirTokens).sum,
         ((dirs.filter (fun d => ¬ d.date < today - 30)).map dayDirTokens).sum⟩ := by
      show dirs.foldl (scanDayDir today) ⟨0, 0⟩ = _
      rw [foldl_scanDayDir]
      simp
    rw [h]
    exact todaySum_le_trailingSum today dirs

/-- Claim C7: the first provider's trailing-30-day cost is the sum over
all `modelUsage` entries of `tokens/1e6 * rate` for the four token
categories, with the default price row for model ids absent from the
fixed table. -/
theorem C7_trailing30Cost :
    (∀ mu : List (String × TokenUsageEntry),
       claudeCost30Days mu = (mu.map (fun p => modelCost (lookupPricing p.1) p.2)).sum)
    ∧ (∀ model_id : String, PRICING.find? (fun p => p.1 == model_id) = none →
         lookupPricing model_id = DEFAULT_PRICING)
    ∧ (∀ (cache : StatsCache) (today : Int),
         (claudeLoadLocalCostStats (some cache) today).cost_30_days =
           claudeCost30Days cache.modelUsage) := by
  refine ⟨?_, ?_, ?_⟩
  · intro mu
    show mu.foldl _ 0 = _
    rw [foldl_add_cost]
    simp
  · intro model_id h
    simp [lookupPricing, h]
  · intro cache today
    rfl

/-- Witness for C7: an unlisted model id gets the default row, and the
cost of 1M input plus 2M output tokens under that row is 3 + 2·15 = 33. -/
theorem C7_trailing30Cost_witness :
    lookupPricing "model-x" = DEFAULT_PRICING
    ∧ claudeCost30Days [("model-x", ⟨1000000, 2000000, 0, 0⟩)] = 33 := by
  refine ⟨C7_trailing30Cost.2.1 "model-x" (by rfl), ?_⟩
  have h : lookupPricing "model-x" = DEFAULT_PRICING :=
    C7_trailing30Cost.2.1 "model-x" (by rfl)
  simp only [claudeCost30Days, List.foldl, h, modelCost, DEFAULT_PRICING]
  norm_num

/-- Claim C1 (amended): whenever the weekly reset timestamp is present,
the first provider's pace is `delta = usedPct - expectedPct` over the
fixed 7-day window with the stated sign classification for every
`usedPct`; the second provider's standalone-monitor fetcher computes the
same only when `usedPct > 0`, and for `usedPct ≤ 0` leaves the default
pace (delta 0, on track). -/
theorem C1_paceDeltaClassification (usedPct reset now w : ℚ) :
    ((claudePace usedPct (some reset) now).delta
        = usedPct - (now - (reset - 7 * 24 * 3600)) / (7 * 24 * 3600) * 100)
    ∧ ((claudePace usedPct (some reset) now).status = .behind
        ↔ (claudePace usedPct (some reset) now).delta < 0)
    ∧ ((claudePace usedPct (some reset) now).status = .ahead
        ↔ 0 < (claudePace usedPct (some reset) now).delta)
    ∧ ((claudePace usedPct (some reset) now).status = .onTrack
        ↔ (claudePace usedPct (some reset) now).delta = 0)
    ∧ (0 < usedPct →
        ((codexPace usedPct (some reset) now (some w)).delta
            = usedPct - (now - (reset - w)) / w * 100)
        ∧ ((codexPace usedPct (some reset) now (some w)).status = .behind
            ↔ (codexPace usedPct (some reset) now (some w)).delta < 0)
        ∧ ((codexPace usedPct (some reset) now (some w)).status = .ahead
            ↔ 0 < (codexPace usedPct (some reset) now (some w)).delta)
        ∧ ((codexPace usedPct (some reset) now (some w)).status = .onTrack
            ↔ (codexPace usedPct (some reset) now (some w)).delta = 0))
    ∧ (usedPct ≤ 0 → codexPace usedPct (some reset) now (some w) = ⟨0, .onTrack⟩) := by
  have hc : reset - (reset - (7 * 24 * 3600 : ℚ)) = 7 * 24 * 3600 := by ring
  have hcp : claudePace usedPct (some reset) now =
      ⟨usedPct - (now - (reset - 7 * 24 * 3600)) / (7 * 24 * 3600) * 100,
       classifyPace (usedPct - (now - (reset - 7 * 24 * 3600)) / (7 * 24 * 3600) * 100)⟩ := by
    simp only [claudePace]
    rw [hc]
  refine ⟨by rw [hcp], ?_, ?_, ?_, ?_, ?_⟩
  · rw [hcp]; exact (classifyPace_spec _).1
  · rw [hcp]; exact (classifyPace_spec _).2.1
  · rw [hcp]; exact (classifyPace_spec _).2.2
  · intro hpos
    have hco : codexPace usedPct (some reset) now (some w) =
        ⟨usedPct - (now - (reset - w)) / w * 100,
         classifyPace (usedPct - (now - (reset - w)) / w * 100)⟩ := by
      simp only [codexPace, Option.getD_some]
      rw [if_pos hpos]
    exact ⟨by rw [hco], by rw [hco]; exact (classifyPace_spec _).1,
      by rw [hco]; exact (classifyPace_spec _).2.1,
      by rw [hco]; exact (classifyPace_spec _).2.2⟩
  · intro hle
    simp only [codexPace]
    rw [if_neg (not_lt.mpr hle)]

/-- Counterexample for C1 as stated: at `usedPct = 0` with the reset
present and half the window elapsed, the claim's formula gives
`delta = -50 < 0` (Behind), but the monitor's Codex fetcher skips the
computation and reports the default delta 0 / on-track. -/
theorem C1_counterexample :
    codexPace 0 (some 604800) 302400 (some 604800) = ⟨0, .onTrack⟩
    ∧ (0 : ℚ) - (302400 - (604800 - 604800)) / 604800 * 100 = -50 := by
  exact ⟨by decide, by norm_num⟩

/-- Witness for C1: the amended theorem applied at concrete inputs, with
both the positive-usage and zero-usage hypotheses discharged. -/
theorem C1_paceDeltaClassification_witness :
    ((codexPace 50 (some 604800) 302400 (some 604800)).delta
        = 50 - (302400 - (604800 - 604800)) / 604800 * 100)
    ∧ codexPace 0 (some 604800) 302400 (some 604800) = ⟨0, .onTrack⟩ :=
  ⟨((C1_paceDeltaClassification 50 604800 302400 604800).2.2.2.2.1 (by norm_num)).1,
   (C1_paceDeltaClassification 0 604800 302400 604800).2.2.2.2.2 (by norm_num)⟩

/-- Claim C2 (amended): in the standalone monitor, a non-empty
`OPENAI_API_KEY` takes precedence over a populated `tokens.access_token`
and yields a credential with an empty refresh token (so no refresh is
ever attempted); in the applet backend the precedence is reversed — a
populated `tokens.access_token` is selected over the API key. -/
theorem C2_apiKeyPrecedence (file : CodexAuthFile) :
    (pyStrip (file.openai_api_key.getD "") ≠ "" →
       codexLoadCredentials (some file) =
         some ⟨pyStrip (file.openai_api_key.getD ""), "", none, none, none⟩
       ∧ ∀ now : ℚ,
           codexNeedsRefresh
             ⟨pyStrip (file.openai_api_key.getD ""), "", none, none, none⟩ now = false)
    ∧ (pyStrip (file.tokens_access_token.getD "") ≠ "" →
       backendCodexAccessToken file = pyStrip (file.tokens_access_token.getD "")) := by
  constructor
  · intro h
    refine ⟨?_, fun now => rfl⟩
    simp only [codexLoadCredentials]
    rw [if_pos h]
  · intro h
    simp only [backendCodexAccessToken]
    rw [if_neg h]

/-- Counterexample for C2 as stated: with both an API key and an OAuth
access token present, the applet backend's credential selection (one of
the claim's cited code sites) picks the OAuth token, not the API key. -/
theorem C2_counterexample :
    backendCodexAccessToken exAuthBoth = "oauth-token"
    ∧ "oauth-token" ≠ "sk-key"
    ∧ exAuthBoth.openai_api_key = some "sk-key" := by
  exact ⟨by decide, by decide, rfl⟩

/-- Witness for C2: the amended theorem applied to the auth file holding
both credentials, with both non-emptiness hypotheses discharged. -/
theorem C2_apiKeyPrecedence_witness :
    (codexLoadCredentials (some exAuthBoth) =
        some ⟨pyStrip (exAuthBoth.openai_api_key.getD ""), "", none, none, none⟩
      ∧ ∀ now : ℚ,
          codexNeedsRefresh
            ⟨pyStrip (exAuthBoth.openai_api_key.getD ""), "", none, none, none⟩ now = false)
    ∧ backendCodexAccessToken exAuthBoth = pyStrip (exAuthBoth.tokens_access_token.getD "") :=
  ⟨(C2_apiKeyPrecedence exAuthBoth).1 (by decide),
   (C2_apiKeyPrecedence exAuthBoth).2 (by decide)⟩

/-- Claim C6: for the first provider, readable credentials holding an
access token whose millisecond `expiresAt` is strictly in the past yield
the distinct token-expired message, not either not-authenticated message,
in both the monitor and the backend. -/
theorem C6_expiredDistinct (creds : ClaudeCreds) (now : ℚ)
    (mfetch : Option ClaudeUsage) (bfetch : FetchOutcome ClaudeUsage)
    (ledger : LedgerStats)
    (hTok : creds.accessToken.getD "" ≠ "")
    (hNz : creds.expiresAt ≠ 0)
    (hPast : (creds.expiresAt : ℚ) / 1000 < now) :
    (claudeCollect (some creds) now mfetch ledger).error_message
        = "Token expired. Run \x27claude\x27 to refresh."
    ∧ (claudeCollect (some creds) now mfetch ledger).error_message
        ≠ "Not logged in. Run \x27claude\x27 to authenticate."
    ∧ (claudeCollect (some creds) now mfetch ledger).error_message
        ≠ "No access token found. Run \x27claude\x27 to authenticate."
    ∧ (backendClaudeCollect (.ok creds) now bfetch ledger).error_message
        = "Token expired. Run \x27claude\x27 to refresh."
    ∧ (backendClaudeCollect (.ok creds) now bfetch ledger).error_message
        ≠ "Not logged in. Run \x27claude\x27 to authenticate."
    ∧ (backendClaudeCollect (.ok creds) now bfetch ledger).error_message
        ≠ "No access token. Run \x27claude\x27 to authenticate." := by
  have hm : claudeCollect (some creds) now mfetch ledger =
      { error_message := "Token expired. Run \x27claude\x27 to refresh." } := by
    simp only [claudeCollect]
    rw [if_neg hTok, if_pos ⟨hNz, hPast⟩]
  have hb : backendClaudeCollect (.ok creds) now bfetch ledger =
      { error_message := "Token expired. Run \x27claude\x27 to refresh." } := by
    simp only [backendClaudeCollect]
    rw [if_neg hTok, if_pos ⟨hNz, hPast⟩]
  rw [hm, hb]
  refine ⟨rfl, by decide, by decide, rfl, by decide, by decide⟩

/-- Witness for C6: credentials with `expiresAt = 1` millisecond at time
`now = 1` second are reported expired by both collectors. -/
theorem C6_expiredDistinct_witness :
    (claudeCollect (some ⟨some "tok", 1⟩) 1 none exLedger).error_message
        = "Token expired. Run \x27claude\x27 to refresh."
    ∧ (backendClaudeCollect (.ok ⟨some "tok", 1⟩) 1 (.httpError 500) exLedger).error_message
        = "Token expired. Run \x27claude\x27 to refresh." :=
  ⟨(C6_expiredDistinct ⟨some "tok", 1⟩ 1 none (.httpError 500) exLedger
      (by decide) (by decide) (by norm_num)).1,
   (C6_expiredDistinct ⟨some "tok", 1⟩ 1 none (.httpError 500) exLedger
      (by decide) (by decide) (by norm_num)).2.2.2.1⟩

/-- Claim C8: when a refresh is attempted and fails (HTTP error, network
error, or malformed response), no credential file write happens and the
poll proceeds to the usage fetch with the old access token. -/
theorem C8_refreshFailureKeepsOldToken (authFile : Option CodexAuthFile)
    (creds : CodexCreds) (now : ℚ) (outcome : RefreshOutcome)
    (fetchResult : Option CodexUsage) (ledger : LedgerTotals)
    (hLoad : codexLoadCredentials authFile = some creds)
    (hNeed : codexNeedsRefresh creds now = true)
    (hFail : outcome.isFailure = true) :
    (monitorCodexCollect authFile now outcome fetchResult ledger).savedFiles = []
    ∧ (monitorCodexCollect authFile now outcome fetchResult ledger).fetchToken
        = some creds.access_token := by
  have hTok := codexLoadCredentials_access_ne_empty hLoad
  have hRef := codexNeedsRefresh_refresh_ne_empty hNeed
  have hstep : codexRefreshToken creds now outcome = (none, []) := by
    unfold codexRefreshToken
    rw [if_neg hRef]
    cases outcome with
    | ok resp => simp [RefreshOutcome.isFailure] at hFail
    | httpError c => rfl
    | netError => rfl
    | malformed => rfl
  have hcollect : monitorCodexCollect authFile now outcome fetchResult ledger =
      (match fetchResult with
       | none =>
         ⟨{ is_connected := true
            error_message := "Failed to fetch usage data from API." },
          [], some creds.access_token⟩
       | some usage =>
         ⟨{ is_connected := true
            pace := codexPace usage.weekly_used_pct usage.weekly_reset_time now
                      usage.limit_window_seconds
            cost_today_tokens := ledger.today_tokens
            cost_30_days_tokens := ledger.trailing30_tokens },
          [], some creds.access_token⟩) := by
    simp only [monitorCodexCollect, hLoad]
    rw [if_neg hTok, if_pos (by exact hNeed), hstep]
  rw [hcollect]
  cases fetchResult <;> exact ⟨rfl, rfl⟩

/-- Witness for C8: stale OAuth credentials (no recorded refresh time)
with a failing network refresh keep the old token and write nothing. -/
theorem C8_refreshFailureKeepsOldToken_witness :
    (monitorCodexCollect (some exAuthStale) 1000 .netError none exTotals).savedFiles = []
    ∧ (monitorCodexCollect (some exAuthStale) 1000 .netError none exTotals).fetchToken
        = some "old-access" :=
  C8_refreshFailureKeepsOldToken (some exAuthStale)
    ⟨"old-access", "old-refresh", none, none, none⟩ 1000 .netError none exTotals
    (by decide) (by decide) (by decide)

/-- Claim C9: a successful refresh persists the new token pair and the
refresh timestamp by read-merge-write: every key of the existing auth
object other than `tokens` and `last_refresh` keeps its value, and those
two keys receive the new token object and timestamp; a successful
`_refresh_token` performs exactly that one save. -/
theorem C9_readMergeWrite (existing : List (String × JVal)) (creds : CodexCreds)
    (nowIso : String) (k : String)
    (hk1 : k ≠ "tokens") (hk2 : k ≠ "last_refresh") :
    jget (codexSaveCredentials existing creds nowIso) k = jget existing k
    ∧ jget (codexSaveCredentials existing creds nowIso) "tokens"
        = some (.obj (tokensObj creds))
    ∧ jget (codexSaveCredentials existing creds nowIso) "last_refresh"
        = some (.str nowIso)
    ∧ (∀ (now : ℚ) (resp : RefreshResponse), creds.refresh_token ≠ "" →
        codexRefreshToken creds now (.ok resp) =
          (some (codexRefreshedCreds creds now resp),
           [codexRefreshedCreds creds now resp])) := by
  refine ⟨?_, ?_, ?_, ?_⟩
  · unfold codexSaveCredentials
    rw [jget_setKey_other _ _ _ _ hk2, jget_setKey_other _ _ _ _ hk1]
  · unfold codexSaveCredentials
    rw [jget_setKey_other _ _ _ _ (by decide), jget_setKey_same]
  · unfold codexSaveCredentials
    rw [jget_setKey_same]
  · intro now resp h
    unfold codexRefreshToken
    rw [if_neg h]

/-- Witness for C9: saving refreshed credentials into an auth object with
an unrelated `OPENAI_API_KEY` key preserves that key and rewrites the
token data and timestamp. -/
theorem C9_readMergeWrite_witness :
    jget (codexSaveCredentials exExistingAuthObj exNewCreds "new-stamp") "OPENAI_API_KEY"
        = jget exExistingAuthObj "OPENAI_API_KEY"
    ∧ jget (codexSaveCredentials exExistingAuthObj exNewCreds "new-stamp") "tokens"
        = some (.obj (tokensObj exNewCreds))
    ∧ jget (codexSaveCredentials exExistingAuthObj exNewCreds "new-stamp") "last_refresh"
        = some (.str "new-stamp") :=
  ⟨(C9_readMergeWrite exExistingAuthObj exNewCreds "new-stamp" "OPENAI_API_KEY"
      (by decide) (by decide)).1,
   (C9_readMergeWrite exExistingAuthObj exNewCreds "new-stamp" "OPENAI_API_KEY"
      (by decide) (by decide)).2.1,
   (C9_readMergeWrite exExistingAuthObj exNewCreds "new-stamp" "OPENAI_API_KEY"
      (by decide) (by decide)).2.2.1⟩

/-- Counterexample for C3 as stated: in the standalone monitor, a fetch
failure with valid credentials yields a connected-with-error snapshot
whose ledger totals are NOT populated — the early return leaves them at
zero even though the session tree holds non-zero totals. -/
theorem C3_counterexample :
    (monitorCodexCollect (some exAuthBoth) 1000 .netError none exTotals).snapshot.is_connected
        = true
    ∧ (monitorCodexCollect (some exAuthBoth) 1000 .netError none exTotals).snapshot.error_message
        ≠ ""
    ∧ (monitorCodexCollect (some exAuthBoth) 1000 .netError none exTotals).snapshot.cost_30_days_tokens
        = 0
    ∧ exTotals.trailing30_tokens = 9 := by
  exact ⟨by decide, by decide, by decide, rfl⟩

/-- Claim C3 (amended): when credentials load and the usage fetch fails,
the standalone monitor marks the snapshot connected-with-error but its
early return skips the local ledger (totals stay zero); the applet
backend always populates the ledger totals, but marks the snapshot
connected only on an HTTP status error — other failures (timeouts,
network errors, parse failures) set the error message while leaving the
connected flag false. -/
theorem C3_fetchFailureHandling (authFile : Option CodexAuthFile)
    (ccreds : CodexCreds) (creds : ClaudeCreds) (auth2 : CodexAuthFile) (now : ℚ)
    (refreshOutcome : RefreshOutcome) (mledger : LedgerTotals)
    (bledger : LedgerStats) (cledger : LedgerTotals) (code : ℕ) (msg : String)
    (hLoad : codexLoadCredentials authFile = some ccreds)
    (hTok : creds.accessToken.getD "" ≠ "")
    (hExp : ¬(creds.expiresAt ≠ 0 ∧ (creds.expiresAt : ℚ) / 1000 < now))
    (hTok2 : backendCodexAccessToken auth2 ≠ "") :
    ((monitorCodexCollect authFile now refreshOutcome none mledger).snapshot.is_connected = true
      ∧ (monitorCodexCollect authFile now refreshOutcome none mledger).snapshot.error_message ≠ ""
      ∧ (monitorCodexCollect authFile now refreshOutcome none mledger).snapshot.cost_today_tokens = 0
      ∧ (monitorCodexCollect authFile now refreshOutcome none mledger).snapshot.cost_30_days_tokens = 0)
    ∧ ((claudeCollect (some creds) now none bledger).is_connected = true
      ∧ (claudeCollect (some creds) now none bledger).error_message ≠ ""
      ∧ (claudeCollect (some creds) now none bledger).cost_today_tokens = 0
      ∧ (claudeCollect (some creds) now none bledger).cost_30_days_tokens = 0)
    ∧ ((backendClaudeCollect (.ok creds) now (.httpError code) bledger).is_connected = true
      ∧ (backendClaudeCollect (.ok creds) now (.httpError code) bledger).error_message ≠ ""
      ∧ (backendClaudeCollect (.ok creds) now (.httpError code) bledger).cost_30_days_tokens
          = bledger.cost_30_days_tokens)
    ∧ ((backendClaudeCollect (.ok creds) now (.otherError msg) bledger).is_connected = false
      ∧ (backendClaudeCollect (.ok creds) now (.otherError msg) bledger).error_message
          = "Failed to fetch: " ++ msg
      ∧ (backendClaudeCollect (.ok creds) now (.otherError msg) bledger).cost_30_days_tokens
          = bledger.cost_30_days_tokens)
    ∧ ((backendCodexCollect (.ok auth2) now (.httpError code) cledger).is_connected = true
      ∧ (backendCodexCollect (.ok auth2) now (.httpError code) cledger).error_message ≠ ""
      ∧ (backendCodexCollect (.ok auth2) now (.httpError code) cledger).cost_30_days_tokens
          = cledger.trailing30_tokens)
    ∧ ((backendCodexCollect (.ok auth2) now (.otherError msg) cledger).is_connected = false
      ∧ (backendCodexCollect (.ok auth2) now (.otherError msg) cledger).error_message
          = "Failed to fetch: " ++ msg
      ∧ (backendCodexCollect (.ok auth2) now (.otherError msg) cledger).cost_30_days_tokens
          = cledger.trailing30_tokens) := by
  have hm : (monitorCodexCollect authFile now refreshOutcome none mledger).snapshot =
      { is_connected := true
        error_message := "Failed to fetch usage data from API." } := by
    simp only [monitorCodexCollect, hLoad]
    rw [if_neg (codexLoadCredentials_access_ne_empty hLoad)]
  have hcl : claudeCollect (some creds) now none bledger =
      { is_connected := true
        error_message := "Failed to fetch usage data from API." } := by
    simp only [claudeCollect]
    rw [if_neg hTok, if_neg hExp]
  have hb1 : backendClaudeCollect (.ok creds) now (.httpError code) bledger =
      { is_connected := true
        error_message := "API error: " ++ toString code
        cost_today := bledger.cost_today
        cost_today_tokens := bledger.cost_today_tokens
        cost_30_days := bledger.cost_30_days
        cost_30_days_tokens := bledger.cost_30_days_tokens } := by
    simp only [backendClaudeCollect]
    rw [if_neg hTok, if_neg hExp]
  have hb2 : backendClaudeCollect (.ok creds) now (.otherError msg) bledger =
      { error_message := "Failed to fetch: " ++ msg
        cost_today := bledger.cost_today
        cost_today_tokens := bledger.cost_today_tokens
        cost_30_days := bledger.cost_30_days
        cost_30_days_tokens := bledger.cost_30_days_tokens } := by
    simp only [backendClaudeCollect]
    rw [if_neg hTok, if_neg hExp]
  have hc1 : backendCodexCollect (.ok auth2) now (.httpError code) cledger =
      { is_connected := true
        error_message := "API error: " ++ toString code
        cost_today_tokens := cledger.today_tokens
        cost_30_days_tokens := cledger.trailing30_tokens } := by
    simp only [backendCodexCollect]
    rw [if_neg hTok2]
  have hc2 : backendCodexCollect (.ok auth2) now (.otherError msg) cledger =
      { error_message := "Failed to fetch: " ++ msg
        cost_today_tokens := cledger.today_tokens
        cost_30_days_tokens := cledger.trailing30_tokens } := by
    simp only [backendCodexCollect]
    rw [if_neg hTok2]
  rw [hm, hcl, hb1, hb2, hc1, hc2]
  refine ⟨⟨rfl, by decide, rfl, rfl⟩, ⟨rfl, by decide, rfl, rfl⟩,
    ⟨rfl, string_append_left_ne_empty _ _ (by decide), rfl⟩,
    ⟨rfl, rfl, rfl⟩,
    ⟨rfl, string_append_left_ne_empty _ _ (by decide), rfl⟩,
    ⟨rfl, rfl, rfl⟩⟩

/-- Witness for C3: the amended theorem applied at concrete inputs with
all credential hypotheses discharged. -/
theorem C3_fetchFailureHandling_witness :
    ((monitorCodexCollect (some exAuthBoth) 1000 .netError none exTotals).snapshot.is_connected = true
      ∧ (monitorCodexCollect (some exAuthBoth) 1000 .netError none exTotals).snapshot.error_message ≠ ""
      ∧ (monitorCodexCollect (some exAuthBoth) 1000 .netError none exTotals).snapshot.cost_today_tokens = 0
      ∧ (monitorCodexCollect (some exAuthBoth) 1000 .netError none exTotals).snapshot.cost_30_days_tokens = 0)
    ∧ ((claudeCollect (some exClaudeCreds) 1000 none exLedger).is_connected = true
      ∧ (claudeCollect (some exClaudeCreds) 1000 none exLedger).error_message ≠ ""
      ∧ (claudeCollect (some exClaudeCreds) 1000 none exLedger).cost_today_tokens = 0
      ∧ (claudeCollect (some exClaudeCreds) 1000 none exLedger).cost_30_days_tokens = 0)
    ∧ ((backendClaudeCollect (.ok exClaudeCreds) 1000 (.httpError 500) exLedger).is_connected = true
      ∧ (backendClaudeCollect (.ok exClaudeCreds) 1000 (.httpError 500) exLedger).error_message ≠ ""
      ∧ (backendClaudeCollect (.ok exClaudeCreds) 1000 (.httpError 500) exLedger).cost_30_days_tokens
          = exLedger.cost_30_days_tokens)
    ∧ ((backendClaudeCollect (.ok exClaudeCreds) 1000 (.otherError "timed out") exLedger).is_connected = false
      ∧ (backendClaudeCollect (.ok exClaudeCreds) 1000 (.otherError "timed out") exLedger).error_message
          = "Failed to fetch: " ++ "timed out"
      ∧ (backendClaudeCollect (.ok exClaudeCreds) 1000 (.otherError "timed out") exLedger).cost_30_days_tokens
          = exLedger.cost_30_days_tokens)
    ∧ ((backendCodexCollect (.ok exAuthBoth) 1000 (.httpError 500) exTotals).is_connected = true
      ∧ (backendCodexCollect (.ok exAuthBoth) 1000 (.httpError 500) exTotals).error_message ≠ ""
      ∧ (backendCodexCollect (.ok exAuthBoth) 1000 (.httpError 500) exTotals).cost_30_days_tokens
          = exTotals.trailing30_tokens)
    ∧ ((backendCodexCollect (.ok exAuthBoth) 1000 (.otherError "timed out") exTotals).is_connected = false
      ∧ (backendCodexCollect (.ok exAuthBoth) 1000 (.otherError "timed out") exTotals).error_message
          = "Failed to fetch: " ++ "timed out"
      ∧ (backendCodexCollect (.ok exAuthBoth) 1000 (.otherError "timed out") exTotals).cost_30_days_tokens
          = exTotals.trailing30_tokens) :=
  C3_fetchFailureHandling (some exAuthBoth) ⟨"sk-key", "", none, none, none⟩
    exClaudeCreds exAuthBoth 1000 .netError exTotals exLedger exTotals 500 "timed out"
    (by decide) (by decide) (by decide) (by decide)

end UsageMonitor
